import Mathlib

/-!
Shallow embedding of `src/src/main.cpp` (NodeMCU image-display gift).

The program has four parts that the claims talk about:
* `patternMode`'s sprite animator: ten sprite slots, each a position and a
  visibility flag; a tick either erases a visible slot or places an invisible
  slot at a random collision-free position, re-rolling on collision and
  aborting when the mode-change flag is raised;
* `displayAllImagesDir`, the slideshow controller: shows the first entry
  immediately, each further entry after the refresh interval, polling the
  mode-change flag between entries, and waits out the interval after the
  last entry;
* `loop`, the mode state machine with its 50 ms debounce of the button flag;
* `setup`/`errorMode`, the terminal error state on SD mount failure.

Time is modelled in milliseconds; each poll iteration of a busy-wait loop
(`yield()` call) advances the clock by one unit.  `millis()` subtraction on
the `uint32_t` clock is modelled by `elapsedMillis`.  `random(n)` is modelled
by a pseudo-random stream `rands : Nat → Nat` consumed sequentially, each
draw reduced modulo the bound, and the interrupt flag by `sig : Nat → Bool`
(its value at each observation point).  All C comparisons on `uint16_t`
operands are computed after the usual integer promotion to `int`, hence
over `Int` here.
-/

/-- `screenWidth` in `main.cpp` (240). -/
def screenWidth : Nat := 240

/-- `screenLength` in `main.cpp` (320). -/
def screenLength : Nat := 320

/-- `slideshowRefreshTime` in `main.cpp` (4000 ms). -/
def slideshowRefreshTime : Nat := 4000

/-- `spriteSize` in `patternMode` (32, square sprites). -/
def spriteSize : Nat := 32

/-- `maxSprites` in `patternMode` (10 slots). -/
def maxSprites : Nat := 10

/-- `xBorderSprite = screenWidth - spriteSize` in `patternMode`. -/
def xBorderSprite : Nat := screenWidth - spriteSize

/-- `yBorderSprite = screenLength - spriteSize - 100` in `patternMode`
(100 is the height of the bottom message sprite). -/
def yBorderSprite : Nat := screenLength - spriteSize - 100

/-- `maxStates` in `main.cpp` (2: slideshow and pattern). -/
def maxStates : Nat := 2

/-- `uint32_t` subtraction `now - prev` as computed by `millis()-prev` in C
(wraparound modulo `2^32`); faithful for arguments below `2^32`. -/
def elapsedMillis (now prev : Nat) : Nat := (now + 2 ^ 32 - prev) % 2 ^ 32

/-- The sprite-slot arrays of `patternMode`: `posXArr`, `posYArr`,
`onScreen`, indexed by slot number. -/
structure PatternState where
  posX : Fin maxSprites → Nat
  posY : Fin maxSprites → Nat
  onScreen : Fin maxSprites → Bool

/-- The collision test of `patternMode` (lines 183-185): the candidate
`(x, y)` collides with the sprite stored at `(px, py)` iff
`!(x < px-spriteSize-1 || x > px+spriteSize+1)` and likewise for `y`.
The `uint16_t` operands are promoted to `int`, so the subtractions are
signed. -/
def collides (x y px py : Nat) : Bool :=
  decide (¬((x : Int) < (px : Int) - (spriteSize : Int) - 1 ∨
            (x : Int) > (px : Int) + (spriteSize : Int) + 1) ∧
          ¬((y : Int) < (py : Int) - (spriteSize : Int) - 1 ∨
            (y : Int) > (py : Int) + (spriteSize : Int) + 1))

/-- One pass of the `for(i=0;i<maxSprites;i++)` collision scan.  On a hit the
flag is set, both coordinates are re-rolled from the random stream at `idx`,
and the scan `continue`s with the remaining slots checked against the new
candidate.  Returns `(collisionFlag, x, y, idx)` after the pass. -/
def collisionPass (st : PatternState) (rands : Nat → Nat) :
    List (Fin maxSprites) → Nat → Nat → Nat → Bool → Bool × Nat × Nat × Nat
  | [], idx, x, y, col => (col, x, y, idx)
  | i :: is, idx, x, y, col =>
      if st.onScreen i then
        if collides x y (st.posX i) (st.posY i) then
          collisionPass st rands is (idx + 2)
            (rands idx % xBorderSprite) (rands (idx + 1) % yBorderSprite) true
        else
          collisionPass st rands is idx x y col
      else
        collisionPass st rands is idx x y col

/-- Outcome of the `do { ... } while(collision)` placement search. -/
inductive RetryResult where
  | found : Nat → Nat → RetryResult
  | aborted : RetryResult
  | stuck : RetryResult
deriving DecidableEq

/-- The `do { collision=false; if(changeButtonState) return; for ... }
while(collision)` loop of `patternMode`.  `iter` numbers the do-while
iterations (the flag is checked at the top of each), `idx` is the position in
the random stream, `(x, y)` the current candidate.  `fuel` bounds the number
of iterations the model unfolds; `stuck` is the out-of-fuel artifact (the C
loop would simply keep retrying). -/
def retryLoop (st : PatternState) (rands : Nat → Nat) (sig : Nat → Bool) :
    Nat → Nat → Nat → Nat → Nat → RetryResult
  | 0, _, _, _, _ => .stuck
  | fuel + 1, iter, idx, x, y =>
      if sig iter then .aborted
      else
        match collisionPass st rands (List.finRange maxSprites) idx x y false with
        | (true, x1, y1, idx1) => retryLoop st rands sig fuel (iter + 1) idx1 x1 y1
        | (false, x1, y1, _) => .found x1 y1

/-- Result of one sprite tick (the body under
`if(millis()-time1>=refreshTime)` in `patternMode`). -/
inductive TickResult where
  | completed : PatternState → TickResult
  | aborted : TickResult
  | stuck : TickResult

/-- One sprite tick of `patternMode` for the selected slot `pick`
(`spritePick = random(maxSprites)`).  A visible slot is erased (position
arrays untouched, flag cleared).  An invisible slot gets a fresh candidate
`x = random(xBorderSprite)`, `y = random(yBorderSprite)` (stream indices 0
and 1), then the retry loop runs; only on success are the arrays written. -/
def patternTick (st : PatternState) (pick : Fin maxSprites) (rands : Nat → Nat)
    (sig : Nat → Bool) (fuel : Nat) : TickResult :=
  if st.onScreen pick then
    .completed { st with onScreen := Function.update st.onScreen pick false }
  else
    match retryLoop st rands sig fuel 0 2
        (rands 0 % xBorderSprite) (rands 1 % yBorderSprite) with
    | .found x y =>
        .completed { posX := Function.update st.posX pick x,
                     posY := Function.update st.posY pick y,
                     onScreen := Function.update st.onScreen pick true }
    | .aborted => .aborted
    | .stuck => .stuck

/-- The slot state after a tick: a completed tick installs the new state; an
aborted (or stalled) tick leaves every array entry as it was, since
`patternMode` writes `posXArr`/`posYArr`/`onScreen` only after the retry
loop has succeeded. -/
def tickEffect (st : PatternState) (r : TickResult) : PatternState :=
  match r with
  | .completed st1 => st1
  | .aborted => st
  | .stuck => st

/-- The no-overlap invariant: distinct visible slots are separated by more
than `spriteSize + 1` pixels in x or in y. -/
def noOverlap (st : PatternState) : Prop :=
  ∀ i j : Fin maxSprites, i ≠ j → st.onScreen i = true → st.onScreen j = true →
    (spriteSize : Int) + 1 < |(st.posX i : Int) - (st.posX j : Int)| ∨
    (spriteSize : Int) + 1 < |(st.posY i : Int) - (st.posY j : Int)|

/-- Every visible slot lies above the reserved bottom-message band:
its stored y is below `yBorderSprite`. -/
def belowBand (st : PatternState) : Prop :=
  ∀ i : Fin maxSprites, st.onScreen i = true → st.posY i < yBorderSprite

instance (st : PatternState) : Decidable (noOverlap st) := by
  unfold noOverlap; infer_instance

instance (st : PatternState) : Decidable (belowBand st) := by
  unfold belowBand; infer_instance

/-- Slot 0. -/
def pick0 : Fin maxSprites := ⟨0, by decide⟩

/-- The initial slot state of `patternMode`: all arrays zeroed, all slots
invisible. -/
def pmInit : PatternState :=
  { posX := fun _ => 0, posY := fun _ => 0, onScreen := fun _ => false }

/-- `pmInit` after a tick that places slot 0 at `(0, 0)` (constant-zero
random stream). -/
def pmTick1 : PatternState :=
  { posX := Function.update pmInit.posX pick0 (0 % xBorderSprite),
    posY := Function.update pmInit.posY pick0 (0 % yBorderSprite),
    onScreen := Function.update pmInit.onScreen pick0 true }

/-- `pmTick1` after a second tick that selects slot 0 again and erases it. -/
def pmTick2 : PatternState :=
  { pmTick1 with onScreen := Function.update pmTick1.onScreen pick0 false }

/-- The globals read and written by one iteration of `loop()`:
`currentState`, `changeButtonState`, `prevStateChange`. -/
structure LoopState where
  currentState : Nat
  changeButtonState : Bool
  prevStateChange : Nat
deriving DecidableEq

/-- `currentState++` on a `uint8_t` followed by the wrap
`if(currentState>=maxStates) currentState=0`. -/
def nextState (c : Nat) : Nat :=
  if (c + 1) % 256 ≥ maxStates then 0 else (c + 1) % 256

/-- One iteration of `loop()` observed at time `now`: if the flag is raised
and at least 50 ms have elapsed since the previous accepted change, advance
the state round-robin, clear the flag and stamp the time; otherwise just
clear the flag. -/
def loopTick (s : LoopState) (now : Nat) : LoopState :=
  if s.changeButtonState && decide (elapsedMillis now s.prevStateChange ≥ 50) then
    { currentState := nextState s.currentState,
      changeButtonState := false,
      prevStateChange := now }
  else
    { s with changeButtonState := false }

/-- Outcome of one run of `displayAllImagesDir`: the entries displayed with
their display times, the time the function returns, and whether it returned
through the early-exit `if(changeButtonState) return`. -/
structure SlideRun where
  displays : List (String × Nat)
  returnTime : Nat
  aborted : Bool
deriving DecidableEq

/-- First time in `now, now+1, ..., now+steps` at which the flag is up
(the `while(entry)` loop checks `changeButtonState` once per iteration). -/
def firstSig (sig : Nat → Bool) : Nat → Nat → Option Nat
  | now, 0 => if sig now then some now else none
  | now, steps + 1 => if sig now then some now else firstSig sig (now + 1) steps

/-- The `while(entry)` loop of `displayAllImagesDir` followed by the final
`while(!(millis()-time_1>=slideshowRefreshTime))` wait.  `now` is the
current time, `time1` the time of the previous display.  With entries
remaining, the next display is due at `max now (time1 + T)`; the flag is
polled on every iteration up to and including the due one, and a raised flag
returns immediately with nothing further displayed.  With no entry left the
final wait polls nothing and returns once the full interval has elapsed. -/
def slideLoop (sig : Nat → Bool) (T : Nat) :
    List String → Nat → Nat → SlideRun
  | [], now, time1 =>
      { displays := [], returnTime := max now (time1 + T), aborted := false }
  | name :: rest, now, time1 =>
      let due := max now (time1 + T)
      match firstSig sig now (due - now) with
      | some t => { displays := [], returnTime := t, aborted := true }
      | none =>
          let r := slideLoop sig T rest (due + 1) due
          { r with displays := (name, due) :: r.displays }

/-- `displayAllImagesDir` starting at time `t0`: the first entry is displayed
immediately and unconditionally (`time_1 = millis()` is taken just before),
then the remaining entries run through `slideLoop`. -/
def displayAllImagesDir (sig : Nat → Bool) (T : Nat) (entries : List String)
    (t0 : Nat) : SlideRun :=
  let r := slideLoop sig T entries.tail t0 t0
  { r with displays := (entries.headD "", t0) :: r.displays }

/-- Status codes of the image collaborator (`ImageReturnCode` of
Adafruit_ImageReader). -/
inductive ImageStatus where
  | success : ImageStatus
  | errFileNotFound : ImageStatus
  | errFormat : ImageStatus
  | errMalloc : ImageStatus
deriving DecidableEq

/-- Modelled from the spec: the image collaborator's dimension query
(`reader.bmpDimensions`, external library code not in this repository)
returns a status and, through its out-parameters, optionally writes the
bitmap's width and height; `written = none` models a failing query that
leaves the caller's variables untouched, per the narrow interface
`dimensions(path) -> (width, height, status)` of the spec. -/
structure DimQuery where
  status : ImageStatus
  written : Option (Int × Int)
deriving DecidableEq

/-- Calls made against the display / image collaborators, in order. -/
inductive RenderCall where
  | fillScreen : Nat → RenderCall
  | setCursor : Int → Int → RenderCall
  | setTextSize : Nat → RenderCall
  | setTextColor : Nat → RenderCall
  | printLine : String → RenderCall
  | printStatus : ImageStatus → RenderCall
  | drawBMP : String → Int → Int → RenderCall
deriving DecidableEq

/-- The centered overload `displayImageTFT(tft, filename)`: `width` and
`height` start at 0, the dimension query may overwrite them, its status is
printed, and the draw is attempted unconditionally at
`((screenWidth-width)/2, (screenLength-height)/2)` (signed `int32_t`
arithmetic; C's `/` truncates toward zero, hence `Int.tdiv`). -/
def displayImageTFT (filename : String) (dims : DimQuery)
    (drawStatus : ImageStatus) : List RenderCall :=
  let width : Int := match dims.written with | some wh => wh.1 | none => 0
  let height : Int := match dims.written with | some wh => wh.2 | none => 0
  [ .printStatus dims.status,
    .drawBMP filename (((screenWidth : Int) - width).tdiv 2)
      (((screenLength : Int) - height).tdiv 2),
    .printStatus drawStatus ]

/-- `errorMode(tft, message)`: the fixed render sequence of the error
splash screen. -/
def errorMode (message : String) : List RenderCall :=
  [ .fillScreen 0x0000,
    .setCursor 0 0,
    .setTextSize 2,
    .setTextColor 0xFFFF,
    .printLine message,
    .printLine " ",
    .printLine "Please unplug and \nreplug the device" ]

/-- Phase of the whole system after `setup()`: either stuck forever in the
`while(true){ yield(); }` of the mount-failure branch, or running `loop()`
with the given globals. -/
inductive SysPhase where
  | halted : SysPhase
  | running : LoopState → SysPhase

/-- `setup()`: on mount failure render the error splash and halt (the button
interrupt is never even attached); on success start `loop()` with the
initial globals. -/
def systemBoot (mountOk : Bool) : List RenderCall × SysPhase :=
  if mountOk then ([], .running { currentState := 0, changeButtonState := false, prevStateChange := 0 })
  else (errorMode "SD card not detected", .halted)

/-- One scheduler step of the booted system: a halted system ignores
everything (the idle loop only yields); a running system latches a possible
button press into the flag and executes one `loop()` iteration. -/
def sysStep (p : SysPhase) (press : Bool) (now : Nat) : SysPhase :=
  match p with
  | .halted => .halted
  | .running s =>
      .running (loopTick { s with changeButtonState := s.changeButtonState || press } now)

/-- `n` scheduler steps from phase `p`, with button presses `press` and
observation times `times`. -/
def sysRun (p : SysPhase) (press : Nat → Bool) (times : Nat → Nat) :
    Nat → SysPhase
  | 0 => p
  | n + 1 => sysStep (sysRun p press times n) (press n) (times n)

/-! ### Helper lemmas: the collision scan and the retry loop -/

/-- Once the collision flag is set, a pass keeps it set. -/
theorem collisionPass_fst_true (st : PatternState) (rands : Nat → Nat) :
    ∀ (l : List (Fin maxSprites)) (idx x y : Nat),
      (collisionPass st rands l idx x y true).1 = true := by
  intro l
  induction l with
  | nil => intro idx x y; rfl
  | cons i is ih =>
      intro idx x y
      simp only [collisionPass]
      split
      · split
        · exact ih _ _ _
        · exact ih _ _ _
      · exact ih _ _ _

/-- A pass that starts with the flag clear and ends with it clear left the
candidate untouched and found it collision-free against every visible slot
it scanned. -/
theorem collisionPass_false (st : PatternState) (rands : Nat → Nat) :
    ∀ (l : List (Fin maxSprites)) (idx x y x1 y1 idx1 : Nat),
      collisionPass st rands l idx x y false = (false, x1, y1, idx1) →
      x1 = x ∧ y1 = y ∧
      ∀ i ∈ l, st.onScreen i = true →
        collides x y (st.posX i) (st.posY i) = false := by
  intro l
  induction l with
  | nil =>
      intro idx x y x1 y1 idx1 h
      simp only [collisionPass, Prod.mk.injEq] at h
      exact ⟨h.2.1.symm, h.2.2.1.symm, by simp⟩
  | cons i is ih =>
      intro idx x y x1 y1 idx1 h
      simp only [collisionPass] at h
      by_cases hv : st.onScreen i
      · rw [if_pos hv] at h
        by_cases hc : collides x y (st.posX i) (st.posY i)
        · rw [if_pos hc] at h
          have := collisionPass_fst_true st rands is (idx + 2)
            (rands idx % xBorderSprite) (rands (idx + 1) % yBorderSprite)
          rw [h] at this
          simp at this
        · rw [if_neg hc] at h
          obtain ⟨hx, hy, hall⟩ := ih idx x y x1 y1 idx1 h
          refine ⟨hx, hy, ?_⟩
          intro j hj hvj
          rcases List.mem_cons.mp hj with rfl | hj
          · exact Bool.eq_false_iff.mpr hc
          · exact hall j hj hvj
      · rw [if_neg hv] at h
        obtain ⟨hx, hy, hall⟩ := ih idx x y x1 y1 idx1 h
        refine ⟨hx, hy, ?_⟩
        intro j hj hvj
        rcases List.mem_cons.mp hj with rfl | hj
        · exact absurd hvj hv
        · exact hall j hj hvj

/-- A pass keeps the candidate inside the placement bounds: inputs below
`xBorderSprite`/`yBorderSprite` give outputs below them, every re-roll being
a fresh `random(xBorderSprite)`/`random(yBorderSprite)`. -/
theorem collisionPass_bounds (st : PatternState) (rands : Nat → Nat) :
    ∀ (l : List (Fin maxSprites)) (idx x y : Nat) (col : Bool)
      (col1 : Bool) (x1 y1 idx1 : Nat),
      collisionPass st rands l idx x y col = (col1, x1, y1, idx1) →
      x < xBorderSprite → y < yBorderSprite →
      x1 < xBorderSprite ∧ y1 < yBorderSprite := by
  intro l
  induction l with
  | nil =>
      intro idx x y col col1 x1 y1 idx1 h hx hy
      simp only [collisionPass, Prod.mk.injEq] at h
      rw [← h.2.1, ← h.2.2.1]
      exact ⟨hx, hy⟩
  | cons i is ih =>
      intro idx x y col col1 x1 y1 idx1 h hx hy
      simp only [collisionPass] at h
      split at h
      · split at h
        · exact ih _ _ _ _ _ _ _ _ h
            (Nat.mod_lt _ (by decide)) (Nat.mod_lt _ (by decide))
        · exact ih _ _ _ _ _ _ _ _ h hx hy
      · exact ih _ _ _ _ _ _ _ _ h hx hy

/-- A placement the retry loop accepts is inside the bounds and
collision-free against every visible slot. -/
theorem retryLoop_found (st : PatternState) (rands : Nat → Nat)
    (sig : Nat → Bool) :
    ∀ (fuel iter idx x y x1 y1 : Nat),
      x < xBorderSprite → y < yBorderSprite →
      retryLoop st rands sig fuel iter idx x y = .found x1 y1 →
      x1 < xBorderSprite ∧ y1 < yBorderSprite ∧
      ∀ i : Fin maxSprites, st.onScreen i = true →
        collides x1 y1 (st.posX i) (st.posY i) = false := by
  intro fuel
  induction fuel with
  | zero => intro iter idx x y x1 y1 _ _ h; simp [retryLoop] at h
  | succ fuel ih =>
      intro iter idx x y x1 y1 hx hy h
      simp only [retryLoop] at h
      split at h
      · simp at h
      · rcases hpass : collisionPass st rands (List.finRange maxSprites)
            idx x y false with ⟨col, x2, y2, idx2⟩
        rw [hpass] at h
        rcases col with _ | _
        · simp only at h
          obtain ⟨hx2, hy2, hall⟩ :=
            collisionPass_false st rands _ idx x y x2 y2 idx2 hpass
          have hinj : x2 = x1 ∧ y2 = y1 := by
            cases h; exact ⟨rfl, rfl⟩
          subst hx2; subst hy2
          rcases hinj with ⟨rfl, rfl⟩
          exact ⟨hx, hy, fun i hv => hall i (List.mem_finRange i) hv⟩
        · simp only at h
          obtain ⟨hx2, hy2⟩ := collisionPass_bounds st rands _ idx x y
            false true x2 y2 idx2 hpass hx hy
          exact ih (iter + 1) idx2 x2 y2 x1 y1 hx2 hy2 h

/-- A non-colliding candidate is separated from the stored sprite by more
than `spriteSize + 1` pixels in x or in y. -/
theorem sep_of_not_collides {x y px py : Nat}
    (h : collides x y px py = false) :
    (spriteSize : Int) + 1 < |(x : Int) - (px : Int)| ∨
    (spriteSize : Int) + 1 < |(y : Int) - (py : Int)| := by
  have h1 := of_decide_eq_false h
  rw [not_and_or, not_not, not_not] at h1
  rcases h1 with h1 | h1
  · left
    rw [lt_abs]
    rcases h1 with h1 | h1
    · right; omega
    · left; omega
  · right
    rw [lt_abs]
    rcases h1 with h1 | h1
    · right; omega
    · left; omega

/-- The helper `retryLoop` never stalls once the flag is raised: with the
flag up from iteration `k` on and enough fuel to reach `k`, the do-while
either aborts (at `k` at the latest) or accepts a candidate earlier. -/
theorem retryLoop_not_stuck (st : PatternState) (rands : Nat → Nat)
    (sig : Nat → Bool) (k : Nat) (hsig : ∀ j, k ≤ j → sig j = true) :
    ∀ (fuel iter idx x y : Nat), k < iter + fuel → 0 < fuel →
      retryLoop st rands sig fuel iter idx x y ≠ .stuck := by
  intro fuel
  induction fuel with
  | zero => intro iter idx x y _ h0; omega
  | succ fuel ih =>
      intro iter idx x y hk _
      simp only [retryLoop]
      by_cases hs : sig iter
      · rw [if_pos hs]; simp
      · rw [if_neg hs]
        have hit : iter < k := by
          by_contra hge
          exact hs (hsig iter (by omega))
        rcases hpass : collisionPass st rands (List.finRange maxSprites)
            idx x y false with ⟨col, x2, y2, idx2⟩
        rcases col with _ | _
        · simp
        · simp only
          exact ih (iter + 1) idx2 x2 y2 (by omega) (by omega)

/-- C1: in pattern mode every completed sprite tick preserves the no-overlap
invariant: erasing a visible slot keeps the remaining visible slots apart,
and a placement is installed only after a full collision scan has passed with
no hit, so any two distinct visible slots stay separated by more than
`spriteSize + 1` pixels in x or in y (an aborted tick installs nothing). -/
theorem patternTick_preserves_noOverlap (st : PatternState)
    (pick : Fin maxSprites) (rands : Nat → Nat) (sig : Nat → Bool)
    (fuel : Nat) (st1 : PatternState) (hinv : noOverlap st)
    (h : patternTick st pick rands sig fuel = .completed st1) :
    noOverlap st1 := by
  unfold patternTick at h
  by_cases hv : st.onScreen pick = true
  · rw [if_pos hv] at h
    injection h with h
    subst h
    intro i j hij hi hj
    simp only at hi hj ⊢
    rcases eq_or_ne i pick with rfl | hip
    · rw [Function.update_same] at hi; exact absurd hi (by simp)
    · rcases eq_or_ne j pick with rfl | hjp
      · rw [Function.update_same] at hj; exact absurd hj (by simp)
      · rw [Function.update_noteq hip] at hi
        rw [Function.update_noteq hjp] at hj
        exact hinv i j hij hi hj
  · rw [if_neg hv] at h
    cases hr : retryLoop st rands sig fuel 0 2
        (rands 0 % xBorderSprite) (rands 1 % yBorderSprite) with
    | aborted => rw [hr] at h; exact TickResult.noConfusion h
    | stuck => rw [hr] at h; exact TickResult.noConfusion h
    | found x y =>
        rw [hr] at h
        injection h with h
        subst h
        obtain ⟨hx1, hy1, hfree⟩ := retryLoop_found st rands sig fuel 0 2
          (rands 0 % xBorderSprite) (rands 1 % yBorderSprite) x y
          (Nat.mod_lt _ (by decide)) (Nat.mod_lt _ (by decide)) hr
        intro i j hij hi hj
        simp only at hi hj ⊢
        by_cases hip : i = pick
        · by_cases hjp : j = pick
          · exact absurd (hip.trans hjp.symm) hij
          · rw [hip] at hi ⊢
            rw [Function.update_noteq hjp] at hj
            rw [Function.update_same, Function.update_same,
              Function.update_noteq hjp, Function.update_noteq hjp]
            exact sep_of_not_collides (hfree j hj)
        · by_cases hjp : j = pick
          · rw [hjp] at hj ⊢
            rw [Function.update_noteq hip] at hi
            rw [Function.update_same, Function.update_same,
              Function.update_noteq hip, Function.update_noteq hip]
            rw [abs_sub_comm ((st.posX i : Int)) (x : Int),
              abs_sub_comm ((st.posY i : Int)) (y : Int)]
            exact sep_of_not_collides (hfree i hi)
          · rw [Function.update_noteq hip] at hi
            rw [Function.update_noteq hjp] at hj
            rw [Function.update_noteq hip, Function.update_noteq hjp,
              Function.update_noteq hip, Function.update_noteq hjp]
            exact hinv i j hij hi hj

/-- Witness for C1: a concrete placing tick from the all-invisible state
yields a state satisfying the no-overlap invariant. -/
theorem patternTick_preserves_noOverlap_witness : noOverlap pmTick1 :=
  patternTick_preserves_noOverlap pmInit pick0 (fun _ => 0) (fun _ => false) 1
    pmTick1 (by decide) rfl

/-- C2: abort atomicity of the placement search.  For a tick activating an
invisible slot: if the mode-change flag is already up at the first check of
the do-while (iteration 0), the tick returns `.aborted` and the slot state is
exactly the pre-tick state (positions and visibility of every slot
unchanged, since `patternMode` writes the arrays only after the search
succeeds); and with the flag up from any retry iteration `k` on (the ISR only
sets it and `loop()` is not running), the search never keeps retrying past
`k`: the tick returns within that iteration. -/
theorem patternTick_abortAtomic (st : PatternState) (pick : Fin maxSprites)
    (rands : Nat → Nat) (sig : Nat → Bool) (fuel k : Nat)
    (hvis : st.onScreen pick = false) (hk : k < fuel) :
    (sig 0 = true →
      patternTick st pick rands sig fuel = .aborted ∧
      tickEffect st (patternTick st pick rands sig fuel) = st) ∧
    ((∀ j, k ≤ j → sig j = true) →
      patternTick st pick rands sig fuel ≠ .stuck) := by
  have hnv : ¬(st.onScreen pick = true) := by rw [hvis]; simp
  constructor
  · intro hs0
    cases fuel with
    | zero => omega
    | succ fuel =>
        have habort : patternTick st pick rands sig (fuel + 1) = .aborted := by
          unfold patternTick
          rw [if_neg hnv]
          simp only [retryLoop, hs0, if_true]
        exact ⟨habort, by rw [habort]; rfl⟩
  · intro hsig
    unfold patternTick
    rw [if_neg hnv]
    cases hr : retryLoop st rands sig fuel 0 2
        (rands 0 % xBorderSprite) (rands 1 % yBorderSprite) with
    | found x y => simp
    | aborted => simp
    | stuck =>
        exact absurd hr
          (retryLoop_not_stuck st rands sig k hsig fuel 0 2 _ _
            (by omega) (by omega))

/-- Witness for C2: from the all-invisible state with the flag raised from
the start, the concrete tick aborts and does not stall. -/
theorem patternTick_abortAtomic_witness :
    patternTick pmInit pick0 (fun _ => 0) (fun _ => true) 1 = .aborted ∧
    patternTick pmInit pick0 (fun _ => 0) (fun _ => true) 1 ≠ .stuck := by
  have h := patternTick_abortAtomic pmInit pick0 (fun _ => 0) (fun _ => true)
    1 0 rfl (by decide)
  exact ⟨(h.1 rfl).1, h.2 (fun j _ => rfl)⟩

/-- C5: every accepted placement in pattern mode lies inside the placement
bounds: `x < screenWidth - spriteSize` and
`y < screenLength - spriteSize - 100`, which with the program's constants
are 208 and 188 (the coordinates are naturals, so the lower bound 0 is
implicit).  The initial candidate and every re-rolled candidate are drawn by
`random` below these bounds, so the accepted one is too. -/
theorem patternTick_boundary (st : PatternState) (pick : Fin maxSprites)
    (rands : Nat → Nat) (sig : Nat → Bool) (fuel : Nat) (st1 : PatternState)
    (hvis : st.onScreen pick = false)
    (h : patternTick st pick rands sig fuel = .completed st1) :
    st1.posX pick < screenWidth - spriteSize ∧
    st1.posY pick < screenLength - spriteSize - 100 ∧
    screenWidth - spriteSize = 208 ∧ screenLength - spriteSize - 100 = 188 := by
  have hnv : ¬(st.onScreen pick = true) := by rw [hvis]; simp
  unfold patternTick at h
  rw [if_neg hnv] at h
  cases hr : retryLoop st rands sig fuel 0 2
      (rands 0 % xBorderSprite) (rands 1 % yBorderSprite) with
  | aborted => rw [hr] at h; exact TickResult.noConfusion h
  | stuck => rw [hr] at h; exact TickResult.noConfusion h
  | found x y =>
      rw [hr] at h
      injection h with h
      subst h
      obtain ⟨hx1, hy1, _⟩ := retryLoop_found st rands sig fuel 0 2
        (rands 0 % xBorderSprite) (rands 1 % yBorderSprite) x y
        (Nat.mod_lt _ (by decide)) (Nat.mod_lt _ (by decide)) hr
      refine ⟨?_, ?_, by decide, by decide⟩
      · simp only [Function.update_same]
        exact hx1
      · simp only [Function.update_same]
        exact hy1

/-- Witness for C5: the concrete placement of slot 0 is inside the bounds. -/
theorem patternTick_boundary_witness :
    pmTick1.posX pick0 < screenWidth - spriteSize ∧
    pmTick1.posY pick0 < screenLength - spriteSize - 100 ∧
    screenWidth - spriteSize = 208 ∧ screenLength - spriteSize - 100 = 188 :=
  patternTick_boundary pmInit pick0 (fun _ => 0) (fun _ => false) 1 pmTick1
    rfl rfl

/-- C6: toggle round-trip.  If two consecutive completed sprite ticks both
select the same slot, the slot's visibility after the second tick equals its
visibility before the first: a visible slot is erased and then re-placed, an
invisible slot is placed and then erased. -/
theorem patternTick_toggle (st st1 st2 : PatternState) (pick : Fin maxSprites)
    (r1 : Nat → Nat) (s1 : Nat → Bool) (f1 : Nat)
    (r2 : Nat → Nat) (s2 : Nat → Bool) (f2 : Nat)
    (h1 : patternTick st pick r1 s1 f1 = .completed st1)
    (h2 : patternTick st1 pick r2 s2 f2 = .completed st2) :
    st2.onScreen pick = st.onScreen pick := by
  unfold patternTick at h1 h2
  by_cases hv : st.onScreen pick = true
  · rw [if_pos hv] at h1
    injection h1 with h1
    have hst1 : st1.onScreen pick = false := by
      rw [← h1]
      simp only [Function.update_same]
    rw [if_neg (by rw [hst1]; simp)] at h2
    cases hr : retryLoop st1 r2 s2 f2 0 2
        (r2 0 % xBorderSprite) (r2 1 % yBorderSprite) with
    | aborted => rw [hr] at h2; exact TickResult.noConfusion h2
    | stuck => rw [hr] at h2; exact TickResult.noConfusion h2
    | found x y =>
        rw [hr] at h2
        injection h2 with h2
        rw [← h2]
        simp only [Function.update_same]
        exact hv.symm
  · rw [if_neg hv] at h1
    cases hr : retryLoop st r1 s1 f1 0 2
        (r1 0 % xBorderSprite) (r1 1 % yBorderSprite) with
    | aborted => rw [hr] at h1; exact TickResult.noConfusion h1
    | stuck => rw [hr] at h1; exact TickResult.noConfusion h1
    | found x y =>
        rw [hr] at h1
        injection h1 with h1
        have hst1 : st1.onScreen pick = true := by
          rw [← h1]
          simp only [Function.update_same]
        rw [if_pos hst1] at h2
        injection h2 with h2
        rw [← h2]
        simp only [Function.update_same]
        exact (Bool.not_eq_true _).mp hv |>.symm

/-- Witness for C6: slot 0 placed by one concrete tick and erased by the
next is back to its pre-first-tick visibility. -/
theorem patternTick_toggle_witness :
    pmTick2.onScreen pick0 = pmInit.onScreen pick0 :=
  patternTick_toggle pmInit pmTick1 pmTick2 pick0
    (fun _ => 0) (fun _ => false) 1 (fun _ => 0) (fun _ => false) 1 rfl rfl

/-- C9 (implicit): the reserved bottom-message band is never overdrawn by
sprites.  Every completed tick preserves "all visible slots have
`y < yBorderSprite`"; hence every visible slot has `y ≤ 187`, its 32-pixel
square ends at row `y + 31 ≤ 218`, and it never reaches row 220 where
`patternMode` draws the bottom message. -/
theorem patternTick_reservedBand (st : PatternState) (pick : Fin maxSprites)
    (rands : Nat → Nat) (sig : Nat → Bool) (fuel : Nat) (st1 : PatternState)
    (hb : belowBand st)
    (h : patternTick st pick rands sig fuel = .completed st1) :
    belowBand st1 ∧
    ∀ i : Fin maxSprites, st1.onScreen i = true →
      st1.posY i ≤ 187 ∧ st1.posY i + (spriteSize - 1) ≤ 218 ∧
      st1.posY i + (spriteSize - 1) < 220 := by
  have hb1 : belowBand st1 := by
    unfold patternTick at h
    by_cases hv : st.onScreen pick = true
    · rw [if_pos hv] at h
      injection h with h
      subst h
      intro i hi
      simp only at hi ⊢
      by_cases hip : i = pick
      · rw [hip, Function.update_same] at hi
        exact absurd hi (by simp)
      · rw [Function.update_noteq hip] at hi
        exact hb i hi
    · rw [if_neg hv] at h
      cases hr : retryLoop st rands sig fuel 0 2
          (rands 0 % xBorderSprite) (rands 1 % yBorderSprite) with
      | aborted => rw [hr] at h; exact TickResult.noConfusion h
      | stuck => rw [hr] at h; exact TickResult.noConfusion h
      | found x y =>
          rw [hr] at h
          injection h with h
          subst h
          obtain ⟨_, hy1, _⟩ := retryLoop_found st rands sig fuel 0 2
            (rands 0 % xBorderSprite) (rands 1 % yBorderSprite) x y
            (Nat.mod_lt _ (by decide)) (Nat.mod_lt _ (by decide)) hr
          intro i hi
          simp only at hi ⊢
          by_cases hip : i = pick
          · rw [hip, Function.update_same]
            exact hy1
          · rw [Function.update_noteq hip] at hi
            rw [Function.update_noteq hip]
            exact hb i hi
  refine ⟨hb1, fun i hi => ?_⟩
  have hy := hb1 i hi
  have hyB : yBorderSprite = 188 := by decide
  have hsS : spriteSize = 32 := by decide
  omega

/-- Witness for C9: the concrete placed state keeps every visible sprite
above the reserved band. -/
theorem patternTick_reservedBand_witness :
    belowBand pmTick1 ∧
    ∀ i : Fin maxSprites, pmTick1.onScreen i = true →
      pmTick1.posY i ≤ 187 ∧ pmTick1.posY i + (spriteSize - 1) ≤ 218 ∧
      pmTick1.posY i + (spriteSize - 1) < 220 :=
  patternTick_reservedBand pmInit pick0 (fun _ => 0) (fun _ => false) 1
    pmTick1 (by decide) rfl

/-- `elapsedMillis` agrees with plain subtraction while the clock has not
wrapped. -/
theorem elapsedMillis_eq_sub (now prev : Nat) (h : prev ≤ now)
    (hlt : now - prev < 2 ^ 32) : elapsedMillis now prev = now - prev := by
  unfold elapsedMillis
  have h2 : now + 2 ^ 32 - prev = (now - prev) + 2 ^ 32 := by omega
  rw [h2, Nat.add_mod_right]
  exact Nat.mod_eq_of_lt hlt

/-- C3: debounce.  A first raised signal accepted at time `t1` advances the
state round-robin, clears the flag and stamps `prevStateChange := t1`; a
second signal raised (and observed) less than 50 ms later is cleared without
a transition, so the pair produces exactly one state change.  Moreover every
`loop()` iteration clears an observed signal, transition or not. -/
theorem loop_debounce (s0 : LoopState) (t1 t2 : Nat)
    (hraised : s0.changeButtonState = true)
    (hacc : 50 ≤ elapsedMillis t1 s0.prevStateChange)
    (hle : t1 ≤ t2) (hclose : t2 - t1 < 50) :
    loopTick s0 t1 = { currentState := nextState s0.currentState,
                       changeButtonState := false, prevStateChange := t1 } ∧
    loopTick { loopTick s0 t1 with changeButtonState := true } t2 =
      { currentState := nextState s0.currentState,
        changeButtonState := false, prevStateChange := t1 } ∧
    ∀ (s : LoopState) (now : Nat), (loopTick s now).changeButtonState = false := by
  have h1 :
      loopTick s0 t1 =
        { currentState := nextState s0.currentState,
          changeButtonState := false,
          prevStateChange := t1 } := by
    unfold loopTick
    rw [if_pos (by simp [hraised, hacc])]
  have help : elapsedMillis t2 t1 = t2 - t1 :=
    elapsedMillis_eq_sub t2 t1 hle (by omega)
  refine ⟨h1, ?_, ?_⟩
  · rw [h1]
    unfold loopTick
    rw [if_neg (by simp [help]; omega)]
  · intro s now
    unfold loopTick
    split
    · rfl
    · rfl

/-- Witness for C3: from state 0 with the flag up and debounce long elapsed,
the tick at 50 ms transitions to state 1; a second raised flag observed at
99 ms is cleared with no transition. -/
theorem loop_debounce_witness :
    loopTick ⟨0, true, 0⟩ 50 = { currentState := nextState 0,
                                 changeButtonState := false,
                                 prevStateChange := 50 } ∧
    loopTick { loopTick ⟨0, true, 0⟩ 50 with changeButtonState := true } 99 =
      { currentState := nextState 0,
        changeButtonState := false, prevStateChange := 50 } ∧
    ∀ (s : LoopState) (now : Nat), (loopTick s now).changeButtonState = false :=
  loop_debounce ⟨0, true, 0⟩ 50 99 rfl (by decide) (by decide) (by decide)

/-- `firstSig` finds nothing when the flag is never raised. -/
theorem firstSig_isNone (sig : Nat → Bool) (hsig : ∀ t, sig t = false) :
    ∀ (steps now : Nat), firstSig sig now steps = none := by
  intro steps
  induction steps with
  | zero => intro now; simp [firstSig, hsig]
  | succ n ih => intro now; simp [firstSig, hsig, ih]

/-- C7: slideshow timing.  With entries `[a, b, c]`, refresh interval
`T ≥ 1` and the flag never raised, the controller displays `a` immediately
at `t0`, `b` at `t0 + T`, `c` at `t0 + 2T`, and returns at `t0 + 3T`
(the last entry is held for the full interval). -/
theorem slideshow_timing (a b c : String) (T t0 : Nat) (hT : 1 ≤ T) :
    displayAllImagesDir (fun _ => false) T [a, b, c] t0 =
      { displays := [(a, t0), (b, t0 + T), (c, t0 + 2 * T)],
        returnTime := t0 + 3 * T, aborted := false } := by
  have hs : ∀ t, (fun _ : Nat => false) t = false := fun _ => rfl
  have hm1 : max t0 (t0 + T) = t0 + T := by omega
  have hm2 : max (t0 + T + 1) (t0 + T + T) = t0 + 2 * T := by omega
  have hm3 : max (t0 + 2 * T + 1) (t0 + 2 * T + T) = t0 + 3 * T := by omega
  have e0 : slideLoop (fun _ => false) T [] (t0 + 2 * T + 1) (t0 + 2 * T) =
      { displays := [], returnTime := t0 + 3 * T, aborted := false } := by
    unfold slideLoop
    rw [hm3]
  have e1 : slideLoop (fun _ => false) T [c] (t0 + T + 1) (t0 + T) =
      { displays := [(c, t0 + 2 * T)], returnTime := t0 + 3 * T,
        aborted := false } := by
    unfold slideLoop
    simp only [hm2, firstSig_isNone _ hs, e0]
  have e2 : slideLoop (fun _ => false) T [b, c] t0 t0 =
      { displays := [(b, t0 + T), (c, t0 + 2 * T)], returnTime := t0 + 3 * T,
        aborted := false } := by
    unfold slideLoop
    simp only [hm1, firstSig_isNone _ hs, e1]
  unfold displayAllImagesDir
  simp only [List.tail_cons, List.headD_cons, e2]

/-- Witness for C7: the concrete run with `T = 2` from `t0 = 0`. -/
theorem slideshow_timing_witness :
    displayAllImagesDir (fun _ => false) 2 ["a", "b", "c"] 0 =
      { displays := [("a", 0), ("b", 0 + 2), ("c", 0 + 2 * 2)],
        returnTime := 0 + 3 * 2, aborted := false } :=
  slideshow_timing "a" "b" "c" 2 0 (by decide)

/-- Counterexample to C4 as stated: with the mode-change flag raised the
whole time, a one-entry slideshow still runs the full final refresh interval
and returns normally at `t0 + T = 2` with `aborted = false` — the final-wait
loop (`while(!(millis()-time_1>=slideshowRefreshTime)) yield;`) never polls
the flag, so no abort happens at its poll points. -/
theorem slideshow_finalwait_ignores_signal :
    (displayAllImagesDir (fun _ => true) 2 ["a"] 0).aborted = false ∧
    (displayAllImagesDir (fun _ => true) 2 ["a"] 0).returnTime = 2 := by
  decide

/-- C4 (amended): while at least one entry remains, the `while(entry)` loop
polls the flag every iteration, so a flag already up at the current poll
time makes the controller return at once, displaying nothing further and
reporting the abort; but during the final wait after the last entry the flag
is not polled: the controller always waits out the full interval and
returns `max now (time1 + T)` with no abort, whatever the flag does. -/
theorem slideshow_abort_amended (sig : Nat → Bool) (T name : _)
    (rest : List String) (now time1 : Nat) (hnow : sig now = true) :
    slideLoop sig T (name :: rest) now time1 =
      { displays := [], returnTime := now, aborted := true } ∧
    ∀ (sig2 : Nat → Bool) (n2 t2 : Nat),
      slideLoop sig2 T [] n2 t2 =
        { displays := [], returnTime := max n2 (t2 + T), aborted := false } := by
  constructor
  · have hfs : firstSig sig now (max now (time1 + T) - now) = some now := by
      cases h : max now (time1 + T) - now with
      | zero => simp [firstSig, hnow]
      | succ n => simp [firstSig, hnow]
    unfold slideLoop
    simp only [hfs]
  · intro sig2 n2 t2
    rfl

/-- Witness for the amended C4: a concrete mid-slideshow poll with the flag
up aborts immediately; the concrete final wait returns after the full
interval. -/
theorem slideshow_abort_amended_witness :
    slideLoop (fun _ => true) 2 ["a"] 5 3 =
      { displays := [], returnTime := 5, aborted := true } ∧
    ∀ (sig2 : Nat → Bool) (n2 t2 : Nat),
      slideLoop sig2 2 [] n2 t2 =
        { displays := [], returnTime := max n2 (t2 + 2), aborted := false } :=
  slideshow_abort_amended (fun _ => true) 2 "a" [] 5 3 rfl

/-- C8: mount failure is terminal.  On SD mount failure `setup()` renders
exactly the fixed error splash, and the system phase is halted and stays
halted after any number of scheduler steps, whatever button presses occur at
whatever times — `loop()` (and with it slideshow or pattern mode) is never
entered. -/
theorem mountFailure_terminal (press : Nat → Bool) (times : Nat → Nat)
    (n : Nat) :
    (systemBoot false).1 = errorMode "SD card not detected" ∧
    sysRun (systemBoot false).2 press times n = .halted ∧
    ∀ s : LoopState, sysRun (systemBoot false).2 press times n ≠ .running s := by
  have hrun : ∀ m, sysRun (systemBoot false).2 press times m = .halted := by
    intro m
    induction m with
    | zero => rfl
    | succ m ih =>
        unfold sysRun
        rw [ih]
        rfl
  refine ⟨rfl, hrun n, ?_⟩
  intro s h
  rw [hrun n] at h
  exact SysPhase.noConfusion h

/-- C10 (implicit): a failed dimension lookup does not skip the draw.  When
the query status is non-success and the out-parameters were not written
(`width`/`height` keep their initial 0), `displayImageTFT` still issues the
draw, at `((screenWidth - 0)/2, (screenLength - 0)/2)` =
`(screenWidth/2, screenLength/2)`; and for any query outcome whatsoever a
draw of the file is attempted — the status never suppresses it. -/
theorem displayImageTFT_draw_unconditional (filename : String)
    (dims : DimQuery) (drawStatus : ImageStatus)
    (herr : dims.status ≠ .success) (hnw : dims.written = none) :
    displayImageTFT filename dims drawStatus =
      [ .printStatus dims.status,
        .drawBMP filename ((screenWidth : Int) / 2) ((screenLength : Int) / 2),
        .printStatus drawStatus ] ∧
    ∀ d2 : DimQuery, ∃ x y : Int,
      RenderCall.drawBMP filename x y ∈ displayImageTFT filename d2 drawStatus := by
  constructor
  · unfold displayImageTFT
    rw [hnw]
    norm_num
    constructor <;> decide
  · intro d2
    unfold displayImageTFT
    exact ⟨_, _, List.mem_cons_of_mem _ (List.mem_cons_self _ _)⟩

/-- Witness for C10: a concrete failing query still draws, centered at
`(120, 160)`. -/
theorem displayImageTFT_draw_unconditional_witness :
    displayImageTFT "/x.bmp" ⟨.errFileNotFound, none⟩ .errFileNotFound =
      [ .printStatus ImageStatus.errFileNotFound,
        .drawBMP "/x.bmp" ((screenWidth : Int) / 2) ((screenLength : Int) / 2),
        .printStatus ImageStatus.errFileNotFound ] ∧
    ∀ d2 : DimQuery, ∃ x y : Int,
      RenderCall.drawBMP "/x.bmp" x y ∈
        displayImageTFT "/x.bmp" d2 ImageStatus.errFileNotFound :=
  displayImageTFT_draw_unconditional "/x.bmp" ⟨.errFileNotFound, none⟩
    .errFileNotFound (by decide) rfl
